import Mathlib

/-!
Verification of the relay-provisioning and recovery layer
(`ockam_api/src/nodes/service/forwarder.rs`).

The Rust source is shallowly embedded: external collaborators (secure-channel
gateway, project directory, relay protocol, message bus) are supplied as
environments of result-valued functions, and the functions of `forwarder.rs`
are translated into pure Lean functions over those environments.  Events
recording which external operations were invoked are collected as traces.
-/

deriving instance DecidableEq for Except

namespace Forwarder

/-- Typed segments of a routing address (`ockam_multiaddr` protocols used by
`forwarder.rs`: `DnsAddr`, `Ip4`, `Ip6`, `Tcp`, `Secure`, `Project`, plus
local service segments produced by `try_address_to_multiaddr`). -/
inductive Seg where
  | dns (host : String)
  | ip4 (host : String)
  | ip6 (host : String)
  | tcp (port : Nat)
  | secure
  | project (name : String)
  | service (name : String)
  deriving DecidableEq, Repr

/-- A routing address is an ordered sequence of typed segments. -/
abbrev MultiAddr := List Seg

def DNSADDR_CODE : Nat := 56
def IP4_CODE : Nat := 4
def IP6_CODE : Nat := 41
def TCP_CODE : Nat := 6
def SECURE_CODE : Nat := 99
def PROJECT_CODE : Nat := 103
def SERVICE_CODE : Nat := 100

/-- Protocol code of a segment. -/
def Seg.code : Seg → Nat
  | .dns _ => DNSADDR_CODE
  | .ip4 _ => IP4_CODE
  | .ip6 _ => IP6_CODE
  | .tcp _ => TCP_CODE
  | .secure => SECURE_CODE
  | .project _ => PROJECT_CODE
  | .service _ => SERVICE_CODE

/-- A positional match item: one exact code or any of a set of codes
(`ockam_multiaddr::Match`). -/
inductive MPat where
  | one (code : Nat)
  | anyOf (codes : List Nat)
  deriving DecidableEq, Repr

def MPat.matchesCode : MPat → Nat → Bool
  | .one c, d => c == d
  | .anyOf cs, d => cs.contains d

def maMatchesGo : List Seg → List MPat → Bool
  | _, [] => true
  | [], _ :: _ => false
  | s :: ss, p :: ps => p.matchesCode s.code && maMatchesGo ss ps

/-- Modelled from the spec: `ockam_multiaddr::MultiAddr::matches` (the crate is
not under src/) — "matching is done against positional patterns starting at
index 0"; each pattern item must match the segment at its position. -/
def maMatches (ma : MultiAddr) (start : Nat) (pat : List MPat) : Bool :=
  maMatchesGo (ma.drop start) pat

/-- The positional pattern `[{dns-host|ipv4|ipv6}, tcp-port, secure-marker]`
used by both `connect` and the recovery closure. -/
def securePattern : List MPat :=
  [MPat.anyOf [DNSADDR_CODE, IP4_CODE, IP6_CODE], MPat.one TCP_CODE, MPat.one SECURE_CODE]

/-- True when the first segment of the address is a project reference
(the `p.code() == Project::CODE` test of `connect`). -/
def isProjectFirst (ma : MultiAddr) : Bool :=
  match ma.head? with
  | some (Seg.project _) => true
  | _ => false

/-- Errors of external collaborators; they are propagated as-is by the
embedded functions (wrapped in `ApiErr.external`). -/
inductive XErr where
  | msg (s : String)
  deriving DecidableEq, Repr

def XErr.toMessage : XErr → String
  | .msg s => s

/-- Error values produced by `forwarder.rs` itself, one constructor per
`ApiError` construction site. -/
inductive ApiErr where
  | invalidMultiaddr
  | missingCloudAddress
  | invalidAddress
  | couldNotMapAddress
  | projectInfoFailed
  | projectNoIdentity
  | channelCreateFailed
  | timeout
  | external (e : XErr)
  deriving DecidableEq, Repr

/-- A transport-level route. -/
structure Route where
  hops : MultiAddr
  deriving DecidableEq, Repr

/-- Modelled from the spec: `multiaddr_to_route` (crate helper, not under
src/) — "derived deterministically from a Routing Address; fails if the
address contains segments that cannot be mapped to a transport hop (e.g. an
unresolved project reference)". -/
def segRoutable : Seg → Bool
  | .project _ => false
  | _ => true

def multiaddr_to_route (ma : MultiAddr) : Option Route :=
  if ma.all segRoutable then some ⟨ma⟩ else none

/-- Modelled from the spec: `multiaddr_to_addr` (crate helper, not under
src/) — maps an address consisting of a single local service segment to a
worker address. -/
def multiaddr_to_addr (ma : MultiAddr) : Option String :=
  match ma with
  | [Seg.service s] => some s
  | _ => none

/-- Modelled from the spec: `try_address_to_multiaddr` (crate helper, not
under src/) — wraps a worker address as a one-segment routing address. -/
def try_address_to_multiaddr (a : String) : Except ApiErr MultiAddr :=
  Except.ok [Seg.service a]

/-- Modelled from the spec: `MultiAddr::try_extend` — "append further
segments, fallible if the result would be malformed"; appending segments of
an already well-formed address never makes the result malformed here. -/
def tryExtend (a : MultiAddr) (rest : List Seg) : Except ApiErr MultiAddr :=
  Except.ok (a ++ rest)

/-- The decoded `CreateForwarder` request (`alias` is spelled `aliasName`
since `alias` is reserved in Lean). -/
structure CreateForwarder where
  address : MultiAddr
  aliasName : Option String
  at_rust_node : Bool
  authorized : Option String
  cloud_addr : Option MultiAddr
  deriving DecidableEq, Repr

/-- Which `RemoteForwarder` constructor is invoked. -/
inductive RelayKind where
  | staticNoHeartbeats (a : String)
  | staticAliased (a : String)
  | ephemeral
  deriving DecidableEq, Repr

/-- External operations observable during the direct (owned) provisioning
path. -/
inductive DEvent where
  | directoryLookup (project : String) (cloud : MultiAddr)
  | channelCreate (r : Route) (auth : Option (List String))
  deriving DecidableEq, Repr

/-- Relay descriptor returned on provisioning success
(`ForwarderInfo`). -/
structure ForwarderInfo where
  forwardingRoute : String
  remoteAddress : String
  deriving DecidableEq, Repr

/-- Environment of the direct provisioning path: resolution and channel
creation are direct method calls on the owned node manager, relay creation
goes through the relay protocol. -/
structure NodeEnv where
  resolveProject : String → MultiAddr → Except XErr (MultiAddr × String)
  createSecureChannel : Route → Option (List String) → Except XErr String
  createRelay : RelayKind → Route → Except XErr ForwarderInfo

/-- `NodeManager::connect`: classify the address; project-prefixed addresses
are resolved through the directory and reached through a fresh secure
channel, `[host, tcp, secure]` addresses get a secure channel directly, and
everything else passes through unchanged. -/
def connect (env : NodeEnv) (req : CreateForwarder) :
    Except ApiErr MultiAddr × List DEvent :=
  match req.address.head? with
  | some (Seg.project p) =>
    match req.cloud_addr with
    | none => (Except.error ApiErr.missingCloudAddress, [])
    | some m =>
      match env.resolveProject p m with
      | Except.error e => (Except.error (ApiErr.external e), [DEvent.directoryLookup p m])
      | Except.ok (a0, i) =>
        match tryExtend a0 (req.address.drop 1) with
        | Except.error e => (Except.error e, [DEvent.directoryLookup p m])
        | Except.ok a =>
          match multiaddr_to_route a with
          | none => (Except.error ApiErr.invalidMultiaddr, [DEvent.directoryLookup p m])
          | some r =>
            match env.createSecureChannel r (some [i]) with
            | Except.error e =>
              (Except.error (ApiErr.external e),
               [DEvent.directoryLookup p m, DEvent.channelCreate r (some [i])])
            | Except.ok a1 =>
              (try_address_to_multiaddr a1,
               [DEvent.directoryLookup p m, DEvent.channelCreate r (some [i])])
  | _ =>
    if maMatches req.address 0 securePattern then
      match multiaddr_to_route req.address with
      | none => (Except.error ApiErr.invalidMultiaddr, [])
      | some r =>
        match env.createSecureChannel r (req.authorized.map (fun x => [x])) with
        | Except.error e =>
          (Except.error (ApiErr.external e),
           [DEvent.channelCreate r (req.authorized.map (fun x => [x]))])
        | Except.ok a1 =>
          (try_address_to_multiaddr a1,
           [DEvent.channelCreate r (req.authorized.map (fun x => [x]))])
    else
      (Except.ok req.address, [])

/-- The reserved auxiliary-store key for the captured authorized identity. -/
def IDENTITY : String := "authorized_identity"

/-- Values captured by value into the recovery closure when
`enable_recovery` installs it: the manager's messaging address, the original
request address, the optional cloud address, the optional alias, and the
authorized identity read from the session store. -/
structure ReplacementSpec where
  manager : String
  addr : MultiAddr
  cloud : Option MultiAddr
  aliasName : Option String
  auth : Option String
  deriving DecidableEq, Repr

/-- Modelled from the spec: `crate::session::Session` (not under src/) — "a
key-value auxiliary store … and a replacement procedure"; "keyed by the
address it was created for" (the address given to `Session::new`). -/
structure Session where
  key : MultiAddr
  store : List (String × String)
  replacement : Option ReplacementSpec
  deriving DecidableEq, Repr

def Session.new (a : MultiAddr) : Session := ⟨a, [], none⟩

def Session.put (s : Session) (k v : String) : Session :=
  ⟨s.key, (k, v) :: s.store, s.replacement⟩

def Session.get (s : Session) (k : String) : Option String :=
  s.store.lookup k

/-- `enable_recovery`: read the captured identity from the session store and
install the replacement closure, capturing (manager address, original
address, cloud address, alias, identity) by value. -/
def enable_recovery (s : Session) (manager : String) (addr : MultiAddr)
    (cloud : Option MultiAddr) (al : Option String) : Session :=
  ⟨s.key, s.store, some ⟨manager, addr, cloud, al, s.get IDENTITY⟩⟩

/-- Response statuses that matter to `forwarder.rs`. -/
inductive Status where
  | ok
  | internalServerError
  | badRequest
  | notFound
  deriving DecidableEq, Repr

/-- Body of the `CreateForwarder` response. -/
inductive RBody where
  | forwarder (b : ForwarderInfo)
  | errorMsg (s : String)
  deriving DecidableEq, Repr

/-- The structured response returned by `create_forwarder` (serialization to
bytes is elided; the response is kept structured). -/
structure FwdResponse where
  reqId : Nat
  status : Status
  body : RBody
  deriving DecidableEq, Repr

/-- Which `RemoteForwarder` constructor `create_forwarder` selects, from the
`at_rust_node` flag and the optional alias. -/
def relayKindOf (req : CreateForwarder) : RelayKind :=
  if req.at_rust_node then
    match req.aliasName with
    | some a => RelayKind.staticNoHeartbeats a
    | none => RelayKind.ephemeral
  else
    match req.aliasName with
    | some a => RelayKind.staticAliased a
    | none => RelayKind.ephemeral

/-- Everything `create_forwarder` produces: the result (a hard error or a
structured response), the session registry after the call, the relay
provisioning outcome (`none` when provisioning was never attempted), and the
trace of direct-path external operations. -/
structure FwdOut where
  result : Except ApiErr FwdResponse
  sessions : List Session
  relay : Option Bool
  events : List DEvent
  deriving Repr

/-- `NodeManager::create_forwarder`: resolve the address via `connect`, map
it to a route, provision the relay, and — in the non-`at_rust_node` branch,
on provisioning success — store a Recovery Session for the resolved address
before answering.  Provisioning failure is converted into an
`InternalServerError` response; failures before provisioning are hard
errors.  (`ctx.async_try_clone()` is modelled from the spec as infallible:
the spec gives the messaging-handle copy no failure mode.) -/
def create_forwarder (env : NodeEnv) (manager : String) (rid : Nat)
    (req : CreateForwarder) (ss : List Session) : FwdOut :=
  match connect env req with
  | (Except.error e, evs) => ⟨Except.error e, ss, none, evs⟩
  | (Except.ok addr, evs) =>
    match multiaddr_to_route addr with
    | none => ⟨Except.error ApiErr.invalidAddress, ss, none, evs⟩
    | some route =>
      match env.createRelay (relayKindOf req) route with
      | Except.ok info =>
        if req.at_rust_node then
          ⟨Except.ok ⟨rid, Status.ok, RBody.forwarder info⟩, ss, some true, evs⟩
        else
          let s0 := Session.new addr
          let s1 := match req.authorized with
            | some id => s0.put IDENTITY id
            | none => s0
          let s2 := enable_recovery s1 manager req.address req.cloud_addr req.aliasName
          ⟨Except.ok ⟨rid, Status.ok, RBody.forwarder info⟩, ss ++ [s2], some true, evs⟩
      | Except.error e =>
        ⟨Except.ok ⟨rid, Status.internalServerError, RBody.errorMsg e.toMessage⟩,
         ss, some false, evs⟩

/-- The recovery time budget, in seconds (`MAX_RECOVERY_TIME`). -/
def MAX_RECOVERY_TIME : Nat := 10

/-- The channel-creation sub-timeout, in seconds (`MAX_CONNECT_TIME`),
attached to the create request itself. -/
def MAX_CONNECT_TIME : Nat := 5

/-- External operations observable during a recovery attempt (each one a
message exchange or relay-protocol call, i.e. a suspension point). -/
inductive REvent where
  | projectLookup (project : String) (cloud : MultiAddr)
  | chanDelete (prevAddr : String)
  | chanCreate (addr : MultiAddr) (auth : Option (List String)) (tmo : Option Nat)
  | relayCreate (k : RelayKind) (r : Route)
  deriving DecidableEq, Repr

/-- A timed computation: the sequence of external steps it performed (each
with its duration in seconds) before it finished or failed, and its
outcome.  Pure computation between steps takes no time. -/
structure Timed (α : Type) where
  steps : List (Nat × REvent)
  result : Except ApiErr α

def Timed.pure (a : α) : Timed α := ⟨[], Except.ok a⟩

def Timed.fail (e : ApiErr) : Timed α := ⟨[], Except.error e⟩

def Timed.ofExcept (r : Except ApiErr α) : Timed α := ⟨[], r⟩

def Timed.bind (x : Timed α) (f : α → Timed β) : Timed β :=
  match x.result with
  | Except.error e => ⟨x.steps, Except.error e⟩
  | Except.ok a => ⟨x.steps ++ (f a).steps, (f a).result⟩

/-- One external call: it takes `d` seconds, is observable as `ev`, and
yields `r`. -/
def Timed.call (d : Nat) (ev : REvent) (r : Except ApiErr α) : Timed α :=
  ⟨[(d, ev)], r⟩

instance : Monad Timed where
  pure := Timed.pure
  bind := Timed.bind

/-- Decoded response to a `DeleteSecureChannel` request (body decoding is
kept structured). -/
structure DeleteChanResponse where
  status : Status
  hasBody : Bool
  errMsg : Option String
  deriving DecidableEq, Repr

/-- Decoded response to a `CreateSecureChannel` request; `chanAddr` is the
new channel's local address, meaningful when `status` is OK. -/
structure CreateChanResponse where
  status : Status
  hasBody : Bool
  errMsg : Option String
  chanAddr : String
  deriving DecidableEq, Repr

/-- Decoded response to a `GetProject` request. -/
structure ProjectResponse where
  status : Status
  accessRoute : MultiAddr
  identity : Option String
  deriving DecidableEq, Repr

/-- Environment of the recovery path: every operation is a message exchange
(or relay-protocol call) with a duration and an outcome; an `XErr` outcome
models failure of the exchange itself. -/
structure RecoveryEnv where
  getProject : String → MultiAddr → Nat × Except XErr ProjectResponse
  deleteChan : String → Nat × Except XErr DeleteChanResponse
  createChan : MultiAddr → Option (List String) → Option Nat → Nat × Except XErr CreateChanResponse
  createRelay : RelayKind → Route → Nat × Except XErr Unit

/-- `project_data`: check the response status, then extract the project's
access route and its identity (required). -/
def project_data (res : ProjectResponse) : Except ApiErr (MultiAddr × String) :=
  if res.status ≠ Status.ok then Except.error ApiErr.projectInfoFailed
  else
    match res.identity with
    | none => Except.error ApiErr.projectNoIdentity
    | some i => Except.ok (res.accessRoute, i)

/-- The free-standing `resolve_project`: a message-based `GetProject`
request/response exchange followed by `project_data` extraction. -/
def resolve_project (env : RecoveryEnv) (project : String) (cloud : MultiAddr) :
    Timed (MultiAddr × String) :=
  let dr := env.getProject project cloud
  Timed.call dr.1 (REvent.projectLookup project cloud)
    (match dr.2 with
     | Except.error e => Except.error (ApiErr.external e)
     | Except.ok resp => project_data resp)

/-- `replace_sec_chan`: map the previous address to a worker address, send a
delete request for it (a non-OK delete response is only logged), then send a
create request for the new route with the optional authorized identity and
the 5-second sub-timeout; a non-OK create response is fatal, otherwise the
new channel's local address is decoded and returned. -/
def replace_sec_chan (env : RecoveryEnv) (prev : MultiAddr) (addr : MultiAddr)
    (auth : Option String) : Timed MultiAddr :=
  match multiaddr_to_addr prev with
  | none => Timed.fail ApiErr.couldNotMapAddress
  | some a =>
    Timed.bind
      (Timed.call (env.deleteChan a).1 (REvent.chanDelete a)
        (match (env.deleteChan a).2 with
         | Except.error e => Except.error (ApiErr.external e)
         | Except.ok resp => Except.ok resp))
      (fun _dresp =>
        let il := auth.map (fun x => [x])
        Timed.bind
          (Timed.call (env.createChan addr il (some MAX_CONNECT_TIME)).1
            (REvent.chanCreate addr il (some MAX_CONNECT_TIME))
            (match (env.createChan addr il (some MAX_CONNECT_TIME)).2 with
             | Except.error e => Except.error (ApiErr.external e)
             | Except.ok resp => Except.ok resp))
          (fun cresp =>
            if cresp.status = Status.ok then
              Timed.ofExcept (try_address_to_multiaddr cresp.chanAddr)
            else
              Timed.fail ApiErr.channelCreateFailed))

/-- The `let a = …` block of the recovery closure: re-run the three-way
classification of the captured original address — a project-prefixed address
is re-resolved via a message-based directory lookup and the channel replaced
with the freshly resolved identity; a secure-pattern address has the channel
replaced with the captured identity; anything else passes through. -/
def classifyRebuild (sp : ReplacementSpec) (env : RecoveryEnv) (prev : MultiAddr) :
    Timed MultiAddr :=
  match sp.addr.head? with
  | some (Seg.project p) =>
    (match sp.cloud with
     | none => Timed.fail ApiErr.missingCloudAddress
     | some c =>
       Timed.bind (resolve_project env p c) (fun ai =>
         match tryExtend ai.1 (sp.addr.drop 1) with
         | Except.error e => Timed.fail e
         | Except.ok a2 => replace_sec_chan env prev a2 (some ai.2)))
  | some _ =>
    if maMatches sp.addr 0 securePattern then
      replace_sec_chan env prev sp.addr sp.auth
    else
      Timed.pure sp.addr
  | none => Timed.pure sp.addr

/-- The tail of the recovery closure: map the (possibly rebuilt) address to
a route and re-provision the relay, aliased when an alias was captured. -/
def reprovisionRelay (sp : ReplacementSpec) (env : RecoveryEnv) (a : MultiAddr) :
    Timed MultiAddr :=
  match multiaddr_to_route a with
  | none => Timed.fail ApiErr.invalidAddress
  | some r =>
    let k := match sp.aliasName with
      | some al => RelayKind.staticAliased al
      | none => RelayKind.ephemeral
    Timed.bind
      (Timed.call (env.createRelay k r).1 (REvent.relayCreate k r)
        (match (env.createRelay k r).2 with
         | Except.error e => Except.error (ApiErr.external e)
         | Except.ok _ => Except.ok ()))
      (fun _ => Timed.pure a)

/-- The body of the recovery closure installed by `enable_recovery`, before
the surrounding timeout: classification/rebuild followed by relay
re-provisioning. -/
def replacementBody (sp : ReplacementSpec) (env : RecoveryEnv) (prev : MultiAddr) :
    Timed MultiAddr :=
  Timed.bind (classifyRebuild sp env prev) (reprovisionRelay sp env)

/-- Total duration of a list of timed steps. -/
def stepsTime (l : List (Nat × REvent)) : Nat :=
  (l.map Prod.fst).sum

/-- The steps that complete within a budget: each step must finish before
the deadline for its effect to have occurred. -/
def cutoff (budget : Nat) : List (Nat × REvent) → List (Nat × REvent)
  | [] => []
  | (d, e) :: rest => if d ≤ budget then (d, e) :: cutoff (budget - d) rest else []

/-- Modelled from the spec: the timeout wrapper (`tokio::time::timeout`, not
under src/) — "on expiry, the attempt fails with a `Timeout` error and the
in-flight work is abandoned": if the body's steps fit in the budget its
result stands (an inner error is returned as-is); otherwise the attempt
reports a timeout and only the steps completing within the budget
occurred. -/
def timeoutRun (budget : Nat) (x : Timed α) : Except ApiErr α × List (Nat × REvent) :=
  if stepsTime x.steps ≤ budget then (x.result, x.steps)
  else (Except.error ApiErr.timeout, cutoff budget x.steps)

/-- One invocation of a session's replacement procedure: the closure body
wrapped in the 10-second recovery timeout. -/
def runReplacement (sp : ReplacementSpec) (env : RecoveryEnv) (prev : MultiAddr) :
    Except ApiErr MultiAddr × List (Nat × REvent) :=
  timeoutRun MAX_RECOVERY_TIME (replacementBody sp env prev)

/-- Event classifier: directory lookups. -/
def isProjectLookup : REvent → Bool
  | REvent.projectLookup _ _ => true
  | _ => false

/-- Event classifier: secure-channel create requests. -/
def isChanCreate : REvent → Bool
  | REvent.chanCreate _ _ _ => true
  | _ => false

/-- Event classifier: relay re-provisioning calls. -/
def isRelayCreate : REvent → Bool
  | REvent.relayCreate _ _ => true
  | _ => false

theorem stepsTime_nil : stepsTime [] = 0 := rfl

theorem stepsTime_cons (p : Nat × REvent) (l : List (Nat × REvent)) :
    stepsTime (p :: l) = p.1 + stepsTime l := by
  simp [stepsTime]

theorem no_self_append (ss : List Session) (s : Session) : ss ≠ ss ++ [s] := by
  intro h
  have := congrArg List.length h
  simp at this

/-- Shared helper: `connect` on an address that is neither project-prefixed
nor secure-pattern shaped is the identity with no external calls. -/
theorem connect_passthrough (env : NodeEnv) (req : CreateForwarder)
    (h1 : isProjectFirst req.address = false)
    (h2 : maMatches req.address 0 securePattern = false) :
    connect env req = (Except.ok req.address, []) := by
  unfold connect
  cases hh : req.address.head? with
  | none => simp [h2]
  | some s =>
    cases s with
    | project p => simp [isProjectFirst, hh] at h1
    | _ => simp [h2]

/-- C4: a Routing Address that does not begin with a project-reference
segment and does not match the `[host, tcp, secure]` positional pattern is
returned unchanged by `connect`, with no secure-channel creation and no
directory lookup performed. -/
theorem c4_connect_passthrough (env : NodeEnv) (req : CreateForwarder)
    (h1 : isProjectFirst req.address = false)
    (h2 : maMatches req.address 0 securePattern = false) :
    connect env req = (Except.ok req.address, []) :=
  connect_passthrough env req h1 h2

/-- An environment with inert collaborators, used to instantiate
hypothesis-bearing theorems at concrete inputs. -/
def probeNodeEnv : NodeEnv :=
  ⟨fun _ _ => Except.error (XErr.msg "down"),
   fun _ _ => Except.error (XErr.msg "down"),
   fun _ _ => Except.error (XErr.msg "down")⟩

/-- A pure-passthrough request: `[dns, tcp]` with no secure marker, flag
unset. -/
def reqPassthrough : CreateForwarder :=
  ⟨[Seg.dns "10.0.0.5", Seg.tcp 3000], none, false, none, none⟩

theorem c4_connect_passthrough_witness :
    isProjectFirst reqPassthrough.address = false ∧
    maMatches reqPassthrough.address 0 securePattern = false ∧
    connect probeNodeEnv reqPassthrough = (Except.ok reqPassthrough.address, []) :=
  ⟨by decide, by decide,
   c4_connect_passthrough probeNodeEnv reqPassthrough (by decide) (by decide)⟩

/-- C3: for a project-prefixed address, `connect` fails with the
missing-cloud-address error exactly when the request carries no cloud
address, whatever the remaining segments are. -/
theorem c3_missing_cloud_iff (env : NodeEnv) (req : CreateForwarder)
    (p : String) (rest : List Seg)
    (h : req.address = Seg.project p :: rest) :
    ((connect env req).1 = Except.error ApiErr.missingCloudAddress ↔
      req.cloud_addr = none) := by
  unfold connect
  rw [h]
  cases hc : req.cloud_addr with
  | none => simp
  | some m =>
    simp only [List.head?_cons, List.drop_succ_cons, List.drop_zero]
    cases hr : env.resolveProject p m with
    | error e => simp
    | ok ai =>
      obtain ⟨a0, i⟩ := ai
      simp only [tryExtend]
      cases hro : multiaddr_to_route (a0 ++ rest) with
      | none => simp
      | some r =>
        cases hch : env.createSecureChannel r (some [i]) with
        | error e => simp [hch]
        | ok a1 => simp [hch, try_address_to_multiaddr]

/-- A project-prefixed request with no cloud address. -/
def reqProjectNoCloud : CreateForwarder :=
  ⟨[Seg.project "acme", Seg.tcp 9000], none, false, none, none⟩

theorem c3_missing_cloud_iff_witness :
    reqProjectNoCloud.address = Seg.project "acme" :: [Seg.tcp 9000] ∧
    (connect probeNodeEnv reqProjectNoCloud).1 = Except.error ApiErr.missingCloudAddress :=
  ⟨by decide,
   (c3_missing_cloud_iff probeNodeEnv reqProjectNoCloud "acme" [Seg.tcp 9000]
      (by decide)).mpr (by decide)⟩

/-- C1: a Recovery Session is added to the registry if and only if relay
provisioning succeeded and the `at_rust_node` flag was unset; in every other
case — flag set (even on provisioning success), provisioning failed or never
attempted — the registry is left unchanged.  The statement quantifies over
all requests, so it covers pure-passthrough addresses with the flag unset as
well. -/
theorem c1_session_added_iff (env : NodeEnv) (manager : String) (rid : Nat)
    (req : CreateForwarder) (ss : List Session) :
    ((∃ s, (create_forwarder env manager rid req ss).sessions = ss ++ [s]) ↔
      ((create_forwarder env manager rid req ss).relay = some true ∧
        req.at_rust_node = false)) ∧
    (¬((create_forwarder env manager rid req ss).relay = some true ∧
        req.at_rust_node = false) →
      (create_forwarder env manager rid req ss).sessions = ss) := by
  cases hc : connect env req with
  | mk res evs =>
    cases res with
    | error e => simp [create_forwarder, hc]
    | ok addr =>
      cases hro : multiaddr_to_route addr with
      | none => simp [create_forwarder, hc, hro]
      | some route =>
        cases hrel : env.createRelay (relayKindOf req) route with
        | error e => simp [create_forwarder, hc, hro, hrel]
        | ok info =>
          cases harn : req.at_rust_node with
          | true => simp [create_forwarder, hc, hro, hrel, harn]
          | false => simp [create_forwarder, hc, hro, hrel, harn]

/-- An environment whose relay protocol always succeeds and whose
secure-channel gateway answers with a fixed new channel address. -/
def happyNodeEnv : NodeEnv :=
  ⟨fun _ _ => Except.ok ([Seg.dns "proj.example", Seg.tcp 4100], "ID-9"),
   fun _ _ => Except.ok "ch1",
   fun _ _ => Except.ok ⟨"froute", "raddr"⟩⟩

theorem c1_session_added_iff_witness :
    ∃ s, (create_forwarder happyNodeEnv "mgr" 1 reqPassthrough []).sessions = [] ++ [s] :=
  (c1_session_added_iff happyNodeEnv "mgr" 1 reqPassthrough []).1.mpr
    ⟨by decide, by decide⟩

/-- C7: a failure during address resolution (in `connect`, or mapping the
resolved address to a route) makes `create_forwarder` itself fail, while a
relay-provisioning failure after successful resolution is answered as a
normal `Ok` result carrying an InternalServerError response with the error
message. -/
theorem c7_error_propagation (env : NodeEnv) (manager : String) (rid : Nat)
    (req : CreateForwarder) (ss : List Session) :
    (∀ e evs, connect env req = (Except.error e, evs) →
      (create_forwarder env manager rid req ss).result = Except.error e) ∧
    (∀ addr evs, connect env req = (Except.ok addr, evs) →
      multiaddr_to_route addr = none →
      (create_forwarder env manager rid req ss).result =
        Except.error ApiErr.invalidAddress) ∧
    (∀ addr evs r e, connect env req = (Except.ok addr, evs) →
      multiaddr_to_route addr = some r →
      env.createRelay (relayKindOf req) r = Except.error e →
      (create_forwarder env manager rid req ss).result =
        Except.ok ⟨rid, Status.internalServerError, RBody.errorMsg e.toMessage⟩) := by
  refine ⟨?_, ?_, ?_⟩
  · intro e evs hc
    simp [create_forwarder, hc]
  · intro addr evs hc hro
    simp [create_forwarder, hc, hro]
  · intro addr evs r e hc hro hrel
    simp [create_forwarder, hc, hro, hrel]

theorem c7_error_propagation_witness :
    connect probeNodeEnv reqProjectNoCloud =
      (Except.error ApiErr.missingCloudAddress, []) ∧
    (create_forwarder probeNodeEnv "mgr" 1 reqProjectNoCloud []).result =
      Except.error ApiErr.missingCloudAddress :=
  ⟨by decide,
   (c7_error_propagation probeNodeEnv "mgr" 1 reqProjectNoCloud []).1
     ApiErr.missingCloudAddress [] (by decide)⟩

/-- C8 counterexample: a pure local passthrough address (no project prefix,
no secure pattern), flag unset, successful provisioning — and a Recovery
Session IS created, contradicting the claim that none is. -/
theorem c8_counterexample_passthrough_session :
    isProjectFirst reqPassthrough.address = false ∧
    maMatches reqPassthrough.address 0 securePattern = false ∧
    reqPassthrough.at_rust_node = false ∧
    (create_forwarder happyNodeEnv "mgr" 1 reqPassthrough []).relay = some true ∧
    (create_forwarder happyNodeEnv "mgr" 1 reqPassthrough []).sessions ≠ [] := by
  decide

/-- C8 amended: a Recovery Session is created whenever relay provisioning
succeeds and the flag is unset, including for a pure local passthrough
address (its replacement step then returns the address unchanged before
re-provisioning the relay). -/
theorem c8_amended_passthrough_session (env : NodeEnv) (manager : String)
    (rid : Nat) (req : CreateForwarder) (ss : List Session)
    (h1 : isProjectFirst req.address = false)
    (h2 : maMatches req.address 0 securePattern = false)
    (h3 : req.at_rust_node = false)
    (h4 : (create_forwarder env manager rid req ss).relay = some true) :
    ∃ s, (create_forwarder env manager rid req ss).sessions = ss ++ [s] := by
  have hc := connect_passthrough env req h1 h2
  cases hro : multiaddr_to_route req.address with
  | none => simp [create_forwarder, hc, hro] at h4
  | some route =>
    cases hrel : env.createRelay (relayKindOf req) route with
    | error e => simp [create_forwarder, hc, hro, hrel] at h4
    | ok info => simp [create_forwarder, hc, hro, hrel, h3]

theorem c8_amended_passthrough_session_witness :
    ∃ s, (create_forwarder happyNodeEnv "mgr" 2 reqPassthrough []).sessions = [] ++ [s] :=
  c8_amended_passthrough_session happyNodeEnv "mgr" 2 reqPassthrough []
    (by decide) (by decide) (by decide) (by decide)

/-- The secure-pattern request of the spec's first scenario, with an
authorized identity supplied. -/
def reqSecure : CreateForwarder :=
  ⟨[Seg.dns "example.org", Seg.tcp 4000, Seg.secure], none, false, some "ID-7", none⟩

/-- C9 counterexample: for a secure-pattern request the created session is
keyed by the resolved channel address returned by `connect`, which differs
from the original request address. -/
theorem c9_counterexample_session_key :
    (create_forwarder happyNodeEnv "mgr" 1 reqSecure []).sessions.map Session.key =
      [[Seg.service "ch1"]] ∧
    reqSecure.address ≠ [Seg.service "ch1"] := by
  decide

/-- C9 amended: the session is stored keyed by the resolved address returned
by `connect`, not by the original request address; the original request
address is instead captured inside the replacement procedure. -/
theorem c9_amended_session_key (env : NodeEnv) (manager : String) (rid : Nat)
    (req : CreateForwarder) (ss : List Session) (addr : MultiAddr)
    (evs : List DEvent) (s : Session)
    (hc : connect env req = (Except.ok addr, evs))
    (hadd : (create_forwarder env manager rid req ss).sessions = ss ++ [s]) :
    s.key = addr ∧ ∃ sp, s.replacement = some sp ∧ sp.addr = req.address := by
  cases hro : multiaddr_to_route addr with
  | none => simp [create_forwarder, hc, hro] at hadd
  | some route =>
    cases hrel : env.createRelay (relayKindOf req) route with
    | error e => simp [create_forwarder, hc, hro, hrel] at hadd
    | ok info =>
      cases harn : req.at_rust_node with
      | true => simp [create_forwarder, hc, hro, hrel, harn] at hadd
      | false =>
        simp [create_forwarder, hc, hro, hrel, harn] at hadd
        cases hauth : req.authorized with
        | none =>
          rw [hauth] at hadd
          rw [← hadd]
          exact ⟨rfl, _, rfl, rfl⟩
        | some id =>
          rw [hauth] at hadd
          rw [← hadd]
          exact ⟨rfl, _, rfl, rfl⟩

/-- The session that `create_forwarder` stores for `reqSecure` under
`happyNodeEnv`. -/
def sessSecure : Session :=
  ⟨[Seg.service "ch1"], [(IDENTITY, "ID-7")],
   some ⟨"mgr", reqSecure.address, none, none, some "ID-7"⟩⟩

theorem c9_amended_session_key_witness :
    connect happyNodeEnv reqSecure = (Except.ok [Seg.service "ch1"],
      [DEvent.channelCreate ⟨reqSecure.address⟩ (some ["ID-7"])]) ∧
    (create_forwarder happyNodeEnv "mgr" 1 reqSecure []).sessions = [] ++ [sessSecure] ∧
    (sessSecure.key = [Seg.service "ch1"] ∧
      ∃ sp, sessSecure.replacement = some sp ∧ sp.addr = reqSecure.address) :=
  ⟨by decide, by decide,
   c9_amended_session_key happyNodeEnv "mgr" 1 reqSecure []
     [Seg.service "ch1"] [DEvent.channelCreate ⟨reqSecure.address⟩ (some ["ID-7"])]
     sessSecure (by decide) (by decide)⟩

/-- Shared helper: when the previous address maps to a worker address and
the delete exchange returns a response (of any status), the steps of
`replace_sec_chan` are exactly the delete exchange followed by the create
exchange. -/
theorem rsc_steps_delete_ok (env : RecoveryEnv) (prev addr : MultiAddr)
    (auth : Option String) (a : String) (dresp : DeleteChanResponse)
    (hmap : multiaddr_to_addr prev = some a)
    (hdel : (env.deleteChan a).2 = Except.ok dresp) :
    (replace_sec_chan env prev addr auth).steps =
      [((env.deleteChan a).1, REvent.chanDelete a),
       ((env.createChan addr (auth.map fun x => [x]) (some MAX_CONNECT_TIME)).1,
        REvent.chanCreate addr (auth.map fun x => [x]) (some MAX_CONNECT_TIME))] := by
  simp only [replace_sec_chan, hmap]
  cases hcr : (env.createChan addr (auth.map fun x => [x]) (some MAX_CONNECT_TIME)).2 with
  | error e => simp [Timed.bind, Timed.call, hdel, hcr]
  | ok cresp =>
    by_cases hst : cresp.status = Status.ok
    · simp [Timed.bind, Timed.call, hdel, hcr, hst, Timed.ofExcept, try_address_to_multiaddr]
    · simp [Timed.bind, Timed.call, hdel, hcr, hst, Timed.fail]

/-- An environment whose delete exchange itself fails (the message could not
be exchanged at all, as opposed to a non-OK response). -/
def renvDeleteDown : RecoveryEnv :=
  ⟨fun _ _ => (1, Except.error (XErr.msg "down")),
   fun _ => (1, Except.error (XErr.msg "boom")),
   fun _ _ _ => (1, Except.ok ⟨Status.ok, false, none, "ch2"⟩),
   fun _ _ => (1, Except.ok ())⟩

/-- C5 counterexample: when the delete request/response exchange itself
fails, `replace_sec_chan` propagates that error and never sends the create
request — so creation is NOT attempted for every outcome of the deletion
step. -/
theorem c5_counterexample_delete_failure :
    (replace_sec_chan renvDeleteDown [Seg.service "prev"] [Seg.service "new"] none).result =
      Except.error (ApiErr.external (XErr.msg "boom")) ∧
    (replace_sec_chan renvDeleteDown [Seg.service "prev"] [Seg.service "new"] none).steps.all
      (fun q => !isChanCreate q.2) = true := by
  decide

/-- C5 amended: whenever the delete exchange yields a response,
`replace_sec_chan` still sends the create request regardless of that
response's status; but a failure of the delete exchange itself propagates
and creation is not attempted. -/
theorem c5_amended_create_attempted (env : RecoveryEnv) (prev addr : MultiAddr)
    (auth : Option String) (a : String) (dresp : DeleteChanResponse)
    (hmap : multiaddr_to_addr prev = some a)
    (hdel : (env.deleteChan a).2 = Except.ok dresp) :
    (replace_sec_chan env prev addr auth).steps =
      [((env.deleteChan a).1, REvent.chanDelete a),
       ((env.createChan addr (auth.map fun x => [x]) (some MAX_CONNECT_TIME)).1,
        REvent.chanCreate addr (auth.map fun x => [x]) (some MAX_CONNECT_TIME))] :=
  rsc_steps_delete_ok env prev addr auth a dresp hmap hdel

/-- An environment where the old channel is already gone (delete answers
with a non-OK status and an error body) and channel creation succeeds. -/
def renvDeleteNonOk : RecoveryEnv :=
  ⟨fun _ _ => (1, Except.error (XErr.msg "down")),
   fun _ => (1, Except.ok ⟨Status.notFound, true, some "gone"⟩),
   fun _ _ _ => (2, Except.ok ⟨Status.ok, false, none, "ch2"⟩),
   fun _ _ => (1, Except.ok ())⟩

theorem c5_amended_create_attempted_witness :
    multiaddr_to_addr [Seg.service "prev"] = some "prev" ∧
    (renvDeleteNonOk.deleteChan "prev").2 =
      Except.ok ⟨Status.notFound, true, some "gone"⟩ ∧
    (replace_sec_chan renvDeleteNonOk [Seg.service "prev"] [Seg.service "new"] none).steps =
      [((renvDeleteNonOk.deleteChan "prev").1, REvent.chanDelete "prev"),
       ((renvDeleteNonOk.createChan [Seg.service "new"] none (some MAX_CONNECT_TIME)).1,
        REvent.chanCreate [Seg.service "new"] none (some MAX_CONNECT_TIME))] :=
  ⟨by decide, by decide,
   c5_amended_create_attempted renvDeleteNonOk [Seg.service "prev"] [Seg.service "new"]
     none "prev" ⟨Status.notFound, true, some "gone"⟩ (by decide) (by decide)⟩

/-- C10: a create response with a non-OK status is fatal whether or not it
carries an error body — `replace_sec_chan` then returns the
channel-creation error — and the new channel's local address is decoded and
returned only when the create response status is OK. -/
theorem c10_create_status_fatal (env : RecoveryEnv) (prev addr : MultiAddr)
    (auth : Option String) (a : String) (dresp : DeleteChanResponse)
    (cresp : CreateChanResponse)
    (hmap : multiaddr_to_addr prev = some a)
    (hdel : (env.deleteChan a).2 = Except.ok dresp)
    (hcre : (env.createChan addr (auth.map fun x => [x]) (some MAX_CONNECT_TIME)).2 =
      Except.ok cresp) :
    (cresp.status ≠ Status.ok →
      (replace_sec_chan env prev addr auth).result =
        Except.error ApiErr.channelCreateFailed) ∧
    (cresp.status = Status.ok →
      (replace_sec_chan env prev addr auth).result =
        try_address_to_multiaddr cresp.chanAddr) := by
  constructor
  · intro hst
    simp [replace_sec_chan, hmap, Timed.bind, Timed.call, hdel, hcre, hst, Timed.fail]
  · intro hst
    simp [replace_sec_chan, hmap, Timed.bind, Timed.call, hdel, hcre, hst, Timed.ofExcept]

/-- An environment where deletion succeeds but the create response has a
non-OK status and no body. -/
def renvCreateNonOk : RecoveryEnv :=
  ⟨fun _ _ => (1, Except.error (XErr.msg "down")),
   fun _ => (1, Except.ok ⟨Status.ok, false, none⟩),
   fun _ _ _ => (2, Except.ok ⟨Status.badRequest, false, none, ""⟩),
   fun _ _ => (1, Except.ok ())⟩

theorem c10_create_status_fatal_witness :
    multiaddr_to_addr [Seg.service "prev"] = some "prev" ∧
    (renvCreateNonOk.deleteChan "prev").2 = Except.ok ⟨Status.ok, false, none⟩ ∧
    (renvCreateNonOk.createChan [Seg.service "new"] none (some MAX_CONNECT_TIME)).2 =
      Except.ok ⟨Status.badRequest, false, none, ""⟩ ∧
    (replace_sec_chan renvCreateNonOk [Seg.service "prev"] [Seg.service "new"] none).result =
      Except.error ApiErr.channelCreateFailed :=
  ⟨by decide, by decide, by decide,
   (c10_create_status_fatal renvCreateNonOk [Seg.service "prev"] [Seg.service "new"] none
      "prev" ⟨Status.ok, false, none⟩ ⟨Status.badRequest, false, none, ""⟩
      (by decide) (by decide) (by decide)).1 (by decide)⟩

theorem cutoff_stepsTime_le (l : List (Nat × REvent)) (b : Nat) :
    stepsTime (cutoff b l) ≤ b := by
  induction l generalizing b with
  | nil => simp [cutoff, stepsTime]
  | cons hd tl ih =>
    obtain ⟨d, e⟩ := hd
    by_cases h : d ≤ b
    · simp only [cutoff, h, if_true, stepsTime_cons]
      have := ih (b - d)
      omega
    · simp [cutoff, h, stepsTime]

/-- C6: every recovery invocation runs under the 10-second bound — the
effective trace of one attempt never exceeds `MAX_RECOVERY_TIME`, so no
relay re-provisioning (or any other step) is observable after the deadline;
if the body's work does not fit in the budget the attempt answers the
timeout error; and if the body finishes within the budget its result —
success or error — is returned as-is, with no retry. -/
theorem c6_recovery_time_bound (sp : ReplacementSpec) (env : RecoveryEnv)
    (prev : MultiAddr) :
    stepsTime (runReplacement sp env prev).2 ≤ MAX_RECOVERY_TIME ∧
    (MAX_RECOVERY_TIME < stepsTime (replacementBody sp env prev).steps →
      (runReplacement sp env prev).1 = Except.error ApiErr.timeout) ∧
    (stepsTime (replacementBody sp env prev).steps ≤ MAX_RECOVERY_TIME →
      (runReplacement sp env prev).1 = (replacementBody sp env prev).result) := by
  unfold runReplacement timeoutRun
  by_cases h : stepsTime (replacementBody sp env prev).steps ≤ MAX_RECOVERY_TIME
  · rw [if_pos h]
    exact ⟨h, fun h2 => absurd h (by omega), fun _ => rfl⟩
  · rw [if_neg h]
    exact ⟨cutoff_stepsTime_le _ _, fun _ => rfl, fun h2 => absurd h2 h⟩

/-- A slow environment: delete takes 3 s, create 5 s, relay re-provisioning
4 s — 12 s in total, over the 10 s budget. -/
def renvSlow : RecoveryEnv :=
  ⟨fun _ _ => (6, Except.ok ⟨Status.ok, [Seg.dns "p", Seg.tcp 1], some "ID"⟩),
   fun _ => (3, Except.ok ⟨Status.ok, false, none⟩),
   fun _ _ _ => (5, Except.ok ⟨Status.ok, false, none, "ch3"⟩),
   fun _ _ => (4, Except.ok ())⟩

/-- The replacement closure of a session created for the spec's secure
scenario. -/
def spSecure : ReplacementSpec :=
  ⟨"mgr", [Seg.dns "example.org", Seg.tcp 4000, Seg.secure], none, none, some "ID-7"⟩

theorem c6_recovery_time_bound_witness :
    MAX_RECOVERY_TIME <
      stepsTime (replacementBody spSecure renvSlow [Seg.service "prev"]).steps ∧
    (runReplacement spSecure renvSlow [Seg.service "prev"]).1 =
      Except.error ApiErr.timeout :=
  ⟨by decide,
   (c6_recovery_time_bound spSecure renvSlow [Seg.service "prev"]).2.1 (by decide)⟩

/-- Shared helper: the replacement record of a freshly stored session
captures the manager address, the original request address, the cloud
address, the alias, and exactly the identity the request supplied (read back
from the session store under the reserved key). -/
theorem session_replacement_spec (env : NodeEnv) (manager : String) (rid : Nat)
    (req : CreateForwarder) (ss : List Session) (s : Session)
    (hadd : (create_forwarder env manager rid req ss).sessions = ss ++ [s]) :
    s.replacement =
      some ⟨manager, req.address, req.cloud_addr, req.aliasName, req.authorized⟩ := by
  cases hc : connect env req with
  | mk res evs =>
    cases res with
    | error e => simp [create_forwarder, hc] at hadd
    | ok addr =>
      cases hro : multiaddr_to_route addr with
      | none => simp [create_forwarder, hc, hro] at hadd
      | some route =>
        cases hrel : env.createRelay (relayKindOf req) route with
        | error e => simp [create_forwarder, hc, hro, hrel] at hadd
        | ok info =>
          cases harn : req.at_rust_node with
          | true => simp [create_forwarder, hc, hro, hrel, harn] at hadd
          | false =>
            simp [create_forwarder, hc, hro, hrel, harn] at hadd
            cases hauth : req.authorized with
            | none =>
              rw [hauth] at hadd
              rw [← hadd]
              simp [enable_recovery, Session.new, Session.get, hauth]
            | some id =>
              rw [hauth] at hadd
              rw [← hadd]
              simp [enable_recovery, Session.new, Session.put, Session.get, hauth, IDENTITY]

/-- Shared helper: on a secure-pattern (non-project) captured address, the
classification step of the recovery closure is exactly a channel
replacement using the captured identity. -/
theorem classify_secure (sp : ReplacementSpec) (env : RecoveryEnv) (prev : MultiAddr)
    (hproj : isProjectFirst sp.addr = false)
    (hsec : maMatches sp.addr 0 securePattern = true) :
    classifyRebuild sp env prev = replace_sec_chan env prev sp.addr sp.auth := by
  unfold classifyRebuild
  cases hh : sp.addr.head? with
  | none =>
    exfalso
    rw [List.head?_eq_none_iff] at hh
    rw [hh] at hsec
    simp [maMatches, maMatchesGo, securePattern] at hsec
  | some s0 => cases s0 <;> simp_all [isProjectFirst]

/-- Shared helper: the steps of `replace_sec_chan` are nothing, the delete
exchange alone, or the delete exchange followed by the create exchange
carrying the given identity. -/
theorem rsc_steps_shape (env : RecoveryEnv) (prev addr : MultiAddr)
    (auth : Option String) :
    (replace_sec_chan env prev addr auth).steps = [] ∨
    (∃ a, (replace_sec_chan env prev addr auth).steps =
      [((env.deleteChan a).1, REvent.chanDelete a)]) ∨
    (∃ a, (replace_sec_chan env prev addr auth).steps =
      [((env.deleteChan a).1, REvent.chanDelete a),
       ((env.createChan addr (auth.map fun x => [x]) (some MAX_CONNECT_TIME)).1,
        REvent.chanCreate addr (auth.map fun x => [x]) (some MAX_CONNECT_TIME))]) := by
  cases hmap : multiaddr_to_addr prev with
  | none => left; simp [replace_sec_chan, hmap, Timed.fail]
  | some a =>
    cases hdel : (env.deleteChan a).2 with
    | error e =>
      right; left
      exact ⟨a, by simp [replace_sec_chan, hmap, hdel, Timed.bind, Timed.call]⟩
    | ok dresp =>
      right; right
      exact ⟨a, rsc_steps_delete_ok env prev addr auth a dresp hmap hdel⟩

/-- Shared helper: the relay re-provisioning tail performs at most one step,
a relay-creation call. -/
theorem reprovision_steps_shape (sp : ReplacementSpec) (env : RecoveryEnv)
    (a : MultiAddr) :
    (reprovisionRelay sp env a).steps = [] ∨
    (∃ d k r, (reprovisionRelay sp env a).steps = [(d, REvent.relayCreate k r)]) := by
  cases hro : multiaddr_to_route a with
  | none => left; simp [reprovisionRelay, hro, Timed.fail]
  | some r =>
    right
    cases hal : sp.aliasName with
    | none =>
      refine ⟨(env.createRelay RelayKind.ephemeral r).1, RelayKind.ephemeral, r, ?_⟩
      cases hcr : (env.createRelay RelayKind.ephemeral r).2 <;>
        simp [reprovisionRelay, hro, hal, Timed.bind, Timed.call, Timed.pure, hcr]
    | some al =>
      refine ⟨(env.createRelay (RelayKind.staticAliased al) r).1,
        RelayKind.staticAliased al, r, ?_⟩
      cases hcr : (env.createRelay (RelayKind.staticAliased al) r).2 <;>
        simp [reprovisionRelay, hro, hal, Timed.bind, Timed.call, Timed.pure, hcr]

/-- Shared helper: on a secure-pattern captured address the steps of the
recovery closure body are those of the channel replacement, possibly
followed by the relay re-provisioning tail. -/
theorem body_secure_steps (sp : ReplacementSpec) (env : RecoveryEnv) (prev : MultiAddr)
    (hproj : isProjectFirst sp.addr = false)
    (hsec : maMatches sp.addr 0 securePattern = true) :
    (replacementBody sp env prev).steps =
      (replace_sec_chan env prev sp.addr sp.auth).steps ∨
    ∃ a, (replacementBody sp env prev).steps =
      (replace_sec_chan env prev sp.addr sp.auth).steps ++
        (reprovisionRelay sp env a).steps := by
  unfold replacementBody
  rw [classify_secure sp env prev hproj hsec]
  cases hres : (replace_sec_chan env prev sp.addr sp.auth).result with
  | error e => left; simp [Timed.bind, hres]
  | ok a => right; exact ⟨a, by simp [Timed.bind, hres]⟩

/-- C2: the identity captured under the reserved key at session-creation
time equals the identity the request supplied, and in the plain
secure-pattern case every recovery invocation passes exactly that identity
to the channel replacement and performs no directory lookup — recovery never
re-derives the identity. -/
theorem c2_identity_stable (env : NodeEnv) (manager : String) (rid : Nat)
    (req : CreateForwarder) (ss : List Session) (renv : RecoveryEnv)
    (prev : MultiAddr) (s : Session) (sp : ReplacementSpec)
    (hadd : (create_forwarder env manager rid req ss).sessions = ss ++ [s])
    (hrep : s.replacement = some sp)
    (hproj : isProjectFirst req.address = false)
    (hsec : maMatches req.address 0 securePattern = true) :
    sp.auth = req.authorized ∧
    (replacementBody sp renv prev).steps.all (fun q => !isProjectLookup q.2) = true ∧
    (∀ d a2 il tmo,
      (d, REvent.chanCreate a2 il tmo) ∈ (replacementBody sp renv prev).steps →
      il = req.authorized.map (fun x => [x])) := by
  have hspec := session_replacement_spec env manager rid req ss s hadd
  rw [hrep] at hspec
  have hsp := Option.some.inj hspec
  subst hsp
  refine ⟨rfl, ?_, ?_⟩
  · rcases body_secure_steps ⟨manager, req.address, req.cloud_addr, req.aliasName, req.authorized⟩ renv prev (by exact hproj) (by exact hsec) with h | ⟨a, h⟩ <;> rw [h]
    · rcases rsc_steps_shape renv prev req.address req.authorized with
        h1 | ⟨a1, h1⟩ | ⟨a1, h1⟩ <;> rw [h1] <;> simp [isProjectLookup]
    · rw [List.all_append, Bool.and_eq_true]
      constructor
      · rcases rsc_steps_shape renv prev req.address req.authorized with
          h1 | ⟨a1, h1⟩ | ⟨a1, h1⟩ <;> rw [h1] <;> simp [isProjectLookup]
      · rcases reprovision_steps_shape _ renv a with h2 | ⟨d, k, r, h2⟩ <;> rw [h2] <;>
          simp [isProjectLookup]
  · intro d a2 il tmo hmem
    rcases body_secure_steps ⟨manager, req.address, req.cloud_addr, req.aliasName, req.authorized⟩ renv prev (by exact hproj) (by exact hsec) with h | ⟨a, h⟩ <;> rw [h] at hmem
    · rcases rsc_steps_shape renv prev req.address req.authorized with
        h1 | ⟨a1, h1⟩ | ⟨a1, h1⟩ <;> rw [h1] at hmem <;> simp at hmem
      exact hmem.2.2.1
    · rw [List.mem_append] at hmem
      cases hmem with
      | inl hmem =>
        rcases rsc_steps_shape renv prev req.address req.authorized with
          h1 | ⟨a1, h1⟩ | ⟨a1, h1⟩ <;> rw [h1] at hmem <;> simp at hmem
        exact hmem.2.2.1
      | inr hmem =>
        rcases reprovision_steps_shape _ renv a with h2 | ⟨dk, k, r, h2⟩ <;>
          rw [h2] at hmem <;> simp at hmem

theorem c2_identity_stable_witness :
    (create_forwarder happyNodeEnv "mgr" 1 reqSecure []).sessions = [] ++ [sessSecure] ∧
    sessSecure.replacement =
      some ⟨"mgr", reqSecure.address, none, none, some "ID-7"⟩ ∧
    ((⟨"mgr", reqSecure.address, none, none, some "ID-7"⟩ : ReplacementSpec).auth =
        reqSecure.authorized ∧
      (replacementBody ⟨"mgr", reqSecure.address, none, none, some "ID-7"⟩
        renvDeleteNonOk [Seg.service "prev"]).steps.all
          (fun q => !isProjectLookup q.2) = true ∧
      (∀ d a2 il tmo,
        (d, REvent.chanCreate a2 il tmo) ∈
          (replacementBody ⟨"mgr", reqSecure.address, none, none, some "ID-7"⟩
            renvDeleteNonOk [Seg.service "prev"]).steps →
        il = reqSecure.authorized.map (fun x => [x]))) :=
  ⟨by decide, by decide,
   c2_identity_stable happyNodeEnv "mgr" 1 reqSecure [] renvDeleteNonOk
     [Seg.service "prev"] sessSecure ⟨"mgr", reqSecure.address, none, none, some "ID-7"⟩
     (by decide) (by decide) (by decide) (by decide)⟩

end Forwarder
